import Mathlib

/-!
Verification development for the humanized ESP32 download subsystem
(`download_engines.cpp` / `buffer_and_performance.cpp`).

The C++ source is shallowly embedded as executable Lean functions:

* machine integers (`size_t`, `int`, `long`) become `Nat`/`Int`; where
  C unsigned wrap-around matters (the `size_t` subtraction in
  `canEnableDoubleBuffering`, the `int → size_t` conversion of
  `http.getSize()`) the wrap is made explicit modulo `2 ^ 32`;
* `float` arithmetic in the heap-margin and speed computations is
  idealized as exact rational arithmetic (`Rat`), with the
  float-to-integer cast modelled as exact truncation;
* external collaborators (HTTP client, stream source, SPIFFS, `malloc`)
  are oracles supplied as explicit parameters; each download call also
  returns the trace of I/O events it performed, so that claims about
  "performs no transport or file I/O" are statements about the trace;
* heap pointers owned by the `BufferManager` and the engine's local
  scratch buffer are tracked as allocation flags (`Bool` = non-null).
-/

/-! ## Constants from `buffer_and_performance.h` -/

def SMALL_DOWNLOAD_BUFFER_SIZE : Nat := 32768
def DEFAULT_DOWNLOAD_BUFFER_SIZE : Nat := 65536
def LARGE_DOWNLOAD_BUFFER_SIZE : Nat := 131072
def XLARGE_DOWNLOAD_BUFFER_SIZE : Nat := 262144

def SMALL_WRITE_BUFFER_SIZE : Nat := 16384
def DEFAULT_WRITE_BUFFER_SIZE : Nat := 32768
def LARGE_WRITE_BUFFER_SIZE : Nat := 65536

def DOUBLE_BUFFER_COUNT : Nat := 2

def MIN_FREE_HEAP_REQUIRED : Nat := 80000

def SPEED_UPDATE_INTERVAL_MS : Nat := 500
def PROGRESS_UPDATE_INTERVAL_MS : Nat := 1000
def PERFORMANCE_HISTORY_SIZE : Nat := 20

/-- `size_t` subtraction `a - b` with C unsigned wrap-around modulo `2^32`
(for operands already reduced below `2^32`). -/
def sizeTSub (a b : Nat) : Nat :=
  (a + 4294967296 - b % 4294967296) % 4294967296

/-- The C conversion of a (possibly negative) `int`/`long` value to `size_t`:
reduction modulo `2^32`.  In particular `-1` (the "unknown length" marker of
`http.getSize()`) becomes `4294967295`. -/
def intToSizeT (i : Int) : Nat :=
  (i % 4294967296).toNat

/-! ## `DownloadResult` (struct in `buffer_and_performance.h`)

Speed fields are `float` in C++; they are idealized as `Rat`.  All fields
carry the default member initializers of the struct. -/

structure DownloadResult where
  success : Bool := false
  fileSize : Nat := 0
  totalBytes : Nat := 0
  downloadTimeMs : Nat := 0
  averageSpeedKBps : Rat := 0
  peakSpeedKBps : Rat := 0
  errorMessage : String := ""
  httpStatusCode : Int := 0
  targetAchieved : Bool := false
  pureTransferSpeedKBps : Rat := 0
  transferEfficiencyPercent : Rat := 0
  connectionSetupMs : Nat := 0
  transferOnlyMs : Nat := 0
  connectionTimeMs : Nat := 0
  deriving DecidableEq, Repr

/-! ## `BufferManager` (`buffer_and_performance.cpp`)

Buffer-slot pointers are modelled as `Bool` flags (`true` = non-null).
`ESP.getFreeHeap()` is an oracle value `freeHeap` passed to each call
(idealized as stable for the duration of one call); `malloc` success is an
oracle `alloc : Nat → Bool` indexed by the order of `malloc` calls inside
one allocation call. -/

structure BufferManagerState where
  downloadBuf0 : Bool
  downloadBuf1 : Bool
  writeBuf0 : Bool
  writeBuf1 : Bool
  downloadBufferSize : Nat
  writeBufferSize : Nat
  activeDownloadBuffer : Nat
  activeWriteBuffer : Nat
  buffersAllocated : Bool
  doubleBufferingEnabled : Bool
  deriving DecidableEq, Repr

namespace BufferManager

/-- The constructor state: null slots, zero sizes, flags cleared. -/
def initialState : BufferManagerState :=
  { downloadBuf0 := false, downloadBuf1 := false
    writeBuf0 := false, writeBuf1 := false
    downloadBufferSize := 0, writeBufferSize := 0
    activeDownloadBuffer := 0, activeWriteBuffer := 0
    buffersAllocated := false, doubleBufferingEnabled := false }

/-- `BufferManager::deallocateBuffers`: frees every slot, resets all sizing
and mode state. -/
def deallocateBuffers (_s : BufferManagerState) : BufferManagerState :=
  initialState

/-- The safety margin `(size_t)(freeHeap * HEAP_SAFETY_MARGIN)` with
`HEAP_SAFETY_MARGIN = 0.15f`, idealized as exact multiplication by `15/100`
truncated to an integer. -/
def heapSafetyMarginOf (freeHeap : Nat) : Nat :=
  3 * freeHeap / 20

/-- `BufferManager::hasEnoughMemory`.  The subtraction cannot underflow
because `min(margin, floor) ≤ margin ≤ freeHeap`, so plain `Nat`
subtraction is faithful to the `size_t` computation. -/
def hasEnoughMemory (freeHeap requiredBytes : Nat) : Bool :=
  let safetyBuffer := heapSafetyMarginOf freeHeap
  let usableMemory := freeHeap - min safetyBuffer MIN_FREE_HEAP_REQUIRED
  decide (requiredBytes ≤ usableMemory)

/-- `BufferManager::getSmartDownloadBufferSize`. -/
def getSmartDownloadBufferSize (freeHeap : Nat) : Nat :=
  if freeHeap > 500000 then XLARGE_DOWNLOAD_BUFFER_SIZE
  else if freeHeap > 350000 then LARGE_DOWNLOAD_BUFFER_SIZE
  else if freeHeap > 200000 then DEFAULT_DOWNLOAD_BUFFER_SIZE
  else if freeHeap > 120000 then SMALL_DOWNLOAD_BUFFER_SIZE
  else 16384

/-- `BufferManager::getSmartWriteBufferSize`. -/
def getSmartWriteBufferSize (freeHeap : Nat) : Nat :=
  if freeHeap > 500000 then LARGE_WRITE_BUFFER_SIZE
  else if freeHeap > 300000 then DEFAULT_WRITE_BUFFER_SIZE
  else if freeHeap > 150000 then SMALL_WRITE_BUFFER_SIZE
  else 8192

/-- `BufferManager::canEnableDoubleBuffering`.  Here the subtraction
`freeHeap - max(safetyBuffer, MIN_FREE_HEAP_REQUIRED)` CAN underflow when
the free heap is below the fixed floor, so the `size_t` wrap is explicit. -/
def canEnableDoubleBuffering (freeHeap : Nat) : Bool :=
  let dl := getSmartDownloadBufferSize freeHeap
  let wr := getSmartWriteBufferSize freeHeap
  let totalForDouble := (dl + wr) * 2
  let safetyBuffer := heapSafetyMarginOf freeHeap
  let usable := sizeTSub freeHeap (max safetyBuffer MIN_FREE_HEAP_REQUIRED)
  decide (totalForDouble ≤ usable)

/-- The allocation `for` loop of `BufferManager::allocateBuffers(size_t,
size_t)`, unrolled for `buffersNeeded ∈ {1, 2}` (slot order: download 0,
write 0, download 1, write 1).  `alloc k` is the success of the k-th
`malloc` of this call; a failed slot triggers `deallocateBuffers` and
failure. -/
def allocLoop (s : BufferManagerState) (buffersNeeded downloadSize writeSize : Nat)
    (alloc : Nat → Bool) : Bool × BufferManagerState :=
  if !alloc 0 then (false, deallocateBuffers s)
  else
    let s := { s with downloadBuf0 := true }
    if !alloc 1 then (false, deallocateBuffers s)
    else
      let s := { s with writeBuf0 := true }
      if 2 ≤ buffersNeeded then
        if !alloc 2 then (false, deallocateBuffers s)
        else
          let s := { s with downloadBuf1 := true }
          if !alloc 3 then (false, deallocateBuffers s)
          else
            let s := { s with writeBuf1 := true }
            (true, { s with
              downloadBufferSize := downloadSize, writeBufferSize := writeSize
              activeDownloadBuffer := 0, activeWriteBuffer := 0
              buffersAllocated := true })
      else
        (true, { s with
          downloadBufferSize := downloadSize, writeBufferSize := writeSize
          activeDownloadBuffer := 0, activeWriteBuffer := 0
          buffersAllocated := true })

/-- The body of `BufferManager::allocateBuffers(size_t, size_t)` after its
initial implicit-release guard (lines 63-121): memory check with silent
double-to-single fallback, then the allocation loop. -/
def allocateBuffersCore (s : BufferManagerState) (downloadSize writeSize freeHeap : Nat)
    (alloc : Nat → Bool) : Bool × BufferManagerState :=
  let buffersNeeded := if s.doubleBufferingEnabled then DOUBLE_BUFFER_COUNT else 1
  let totalRequired := (downloadSize + writeSize) * buffersNeeded
  if !hasEnoughMemory freeHeap totalRequired then
    if s.doubleBufferingEnabled then
      let s := { s with doubleBufferingEnabled := false }
      if !hasEnoughMemory freeHeap (downloadSize + writeSize) then (false, s)
      else allocLoop s 1 downloadSize writeSize alloc
    else (false, s)
  else allocLoop s buffersNeeded downloadSize writeSize alloc

/-- `BufferManager::allocateBuffers(size_t downloadSize, size_t writeSize)`
(the explicit-sizes path, lines 57-121): implicit full release when
already allocated, then the memory-checked allocation. -/
def allocateBuffers (s : BufferManagerState) (downloadSize writeSize freeHeap : Nat)
    (alloc : Nat → Bool) : Bool × BufferManagerState :=
  allocateBuffersCore (if s.buffersAllocated then deallocateBuffers s else s)
    downloadSize writeSize freeHeap alloc

/-- `BufferManager::allocateSmartScalingBuffers`: early success (with no
release and no new allocation) when buffers are already allocated;
otherwise derives sizes and the double-buffering mode from the heap
reading and delegates to the explicit-sizes path. -/
def allocateSmartScalingBuffers (s : BufferManagerState) (freeHeap : Nat)
    (alloc : Nat → Bool) : Bool × BufferManagerState :=
  if s.buffersAllocated then (true, s)
  else
    let smartDownloadSize := getSmartDownloadBufferSize freeHeap
    let smartWriteSize := getSmartWriteBufferSize freeHeap
    let s := { s with doubleBufferingEnabled := canEnableDoubleBuffering freeHeap }
    allocateBuffers s smartDownloadSize smartWriteSize freeHeap alloc

/-- `BufferManager::allocateBuffers()` (no arguments): delegates to the
smart-scaling path. -/
def allocateBuffersDefault (s : BufferManagerState) (freeHeap : Nat)
    (alloc : Nat → Bool) : Bool × BufferManagerState :=
  allocateSmartScalingBuffers s freeHeap alloc

end BufferManager

/-! ## `PerformanceMonitor` (`buffer_and_performance.cpp`)

Speeds are `float` in C++, idealized as `Rat`.  `millis()` readings are
`Nat` parameters; within one `updateProgress` call the two `millis()`
reads (in `updateProgress` and in `calculateCurrentSpeed`) are idealized
as returning the same value `now`, and the monotone clock makes the
`unsigned long` differences plain `Nat` subtractions. -/

structure PerformanceMonitorState where
  startTime : Nat
  lastUpdateTime : Nat
  lastSpeedUpdateTime : Nat
  totalBytes : Nat
  lastByteCount : Nat
  currentSpeedKBps : Rat
  averageSpeedKBps : Rat
  speedHistory : List Rat
  historyIndex : Nat
  isActive : Bool
  deriving DecidableEq, Repr

namespace PerformanceMonitor

/-- `PerformanceMonitor::updateSpeedHistory`: overwrite the slot at
`historyIndex % PERFORMANCE_HISTORY_SIZE` with the current speed and
advance the index. -/
def updateSpeedHistory (s : PerformanceMonitorState) : PerformanceMonitorState :=
  { s with
    speedHistory := s.speedHistory.set (s.historyIndex % PERFORMANCE_HISTORY_SIZE) s.currentSpeedKBps
    historyIndex := s.historyIndex + 1 }

/-- `PerformanceMonitor::calculateCurrentSpeed(size_t newBytes)`:
instantaneous speed `(bytesDelta / 1024) * 1000 / dt` in KB/s, byte delta
with counter-reset fallback, exponential average `avg*0.8 + cur*0.2`,
then the history update. -/
def calculateCurrentSpeed (s : PerformanceMonitorState) (newBytes now : Nat) :
    PerformanceMonitorState :=
  let dt := now - s.lastSpeedUpdateTime
  if dt = 0 then s
  else
    let bytesDelta := if s.lastByteCount ≤ newBytes then newBytes - s.lastByteCount else newBytes
    let cur : Rat := ((bytesDelta : Rat) / 1024) * 1000 / (dt : Rat)
    let avg : Rat := s.averageSpeedKBps * (4 / 5 : Rat) + cur * (1 / 5 : Rat)
    updateSpeedHistory
      { s with currentSpeedKBps := cur, averageSpeedKBps := avg, lastByteCount := newBytes }

/-- `PerformanceMonitor::updateProgress(size_t bytesTransferred)`: no-op
when inactive; records the cumulative byte count; samples the speed when
the speed interval has elapsed; the periodic progress print only touches
`lastUpdateTime` (printing itself is output-only). -/
def updateProgress (s : PerformanceMonitorState) (bytesTransferred now : Nat) :
    PerformanceMonitorState :=
  if !s.isActive then s
  else
    let s := { s with totalBytes := bytesTransferred }
    let s :=
      if SPEED_UPDATE_INTERVAL_MS ≤ now - s.lastSpeedUpdateTime then
        { calculateCurrentSpeed s bytesTransferred now with lastSpeedUpdateTime := now }
      else s
    if PROGRESS_UPDATE_INTERVAL_MS ≤ now - s.lastUpdateTime then
      { s with lastUpdateTime := now }
    else s

end PerformanceMonitor

/-! ## Download engines (`download_engines.cpp`)

The HTTP client, the stream source and SPIFFS are oracles.  One
`StreamStep` describes what the collaborators answer during one iteration
of the streaming loop (the two `available()` reads of an iteration are
idealized as agreeing); the end of the step list models a closed
connection.  Every call returns, besides the `DownloadResult`, the trace
of transport/filesystem events it performed and the allocation state of
the engine's local scratch buffer at return. -/

inductive TraceEvent where
  /-- `SPIFFS.begin` (mount attempt). -/
  | mount
  /-- `http.begin` + `http.GET()` (one transport attempt). -/
  | httpGet
  /-- `http.sendRequest("HEAD")` metadata probe (`probeRemoteSize`). -/
  | headProbe
  /-- `SPIFFS.open`. -/
  | fileOpen
  /-- `File::write`. -/
  | fileWrite
  /-- `SPIFFS.exists`. -/
  | fileExists
  /-- `File::size`. -/
  | fileSizeQuery
  /-- `stream->readBytes`. -/
  | streamRead
  /-- `delay(300)` retry backoff. -/
  | backoff
  /-- `delay(5)` idle wait inside the streaming loop. -/
  | idleWait
  deriving DecidableEq, Repr

/-- Transport or file I/O (the mount attempt and the pure delays are
neither). -/
def TraceEvent.touchesNetworkOrFiles : TraceEvent → Bool
  | .mount => false
  | .backoff => false
  | .idleWait => false
  | _ => true

/-- Collaborator answers for one iteration of the streaming loop of
`HttpDownloader::download`. -/
structure StreamStep where
  /-- `http.connected()` at the top of the iteration. -/
  connected : Bool
  /-- `stream->available()` during this iteration. -/
  available : Nat
  /-- Bytes the source would deliver: `stream->readBytes(buf, toRead)`
  returns `min readable toRead`; `readable = 0` models a failed read. -/
  readable : Nat
  /-- Whether `writeChunkToFile` succeeds for this chunk (covers both the
  open-for-append failure and the short-write failure). -/
  writeOk : Bool
  deriving DecidableEq, Repr

/-- Collaborator answers for one retry-loop attempt. -/
structure HttpAttempt where
  /-- `http.GET()` status code (`HTTP_CODE_OK = 200`). -/
  code : Int
  /-- `http.getSize()` (`-1` = unknown length). -/
  size : Int
  /-- Whether `SPIFFS.open(targetPath, FILE_WRITE)` succeeds. -/
  outOpenOk : Bool
  /-- The stream behaviour for this attempt. -/
  steps : List StreamStep

/-- The full environment of one `HttpDownloader::download` call. -/
structure HttpEnv where
  /-- Whether `SPIFFS.begin(true)` succeeds. -/
  spiffsBeginOk : Bool
  /-- Whether `malloc` of the local scratch buffer succeeds. -/
  mallocOk : Bool
  /-- The attempt environments, indexed by retry-loop iteration. -/
  attempts : Nat → HttpAttempt

/-- Result of the streaming loop: bytes downloaded, the error message of a
failed chunk write (if any), and the emitted events. -/
structure StreamOut where
  downloaded : Nat
  writeError : Option String
  events : List TraceEvent
  deriving DecidableEq, Repr

namespace HttpDownloader

/-- The streaming `while` loop of `HttpDownloader::download` (lines
116-148): runs while the source is connected, the byte budget (known
total) or data availability (unknown total) allows, and the call is not
cancelled; caps each read at the remaining expected bytes; a chunk-write
failure breaks out with the `"Write failed"` message. -/
def streamLoop (bufSize total : Nat) (cancelled : Bool) :
    List StreamStep → Nat → StreamOut
  | [], downloaded => { downloaded := downloaded, writeError := none, events := [] }
  | step :: rest, downloaded =>
    let keepGoing := step.connected
      && (if 0 < total then decide (downloaded < total) else decide (0 < step.available))
      && !cancelled
    if keepGoing then
      let toRead := if 0 < total then min bufSize (total - downloaded) else bufSize
      if step.available = 0 then
        let out := streamLoop bufSize total cancelled rest downloaded
        { out with events := TraceEvent.idleWait :: out.events }
      else
        let readBytes := min step.readable toRead
        if readBytes = 0 then
          { downloaded := downloaded, writeError := none, events := [TraceEvent.streamRead] }
        else if step.writeOk then
          let out := streamLoop bufSize total cancelled rest (downloaded + readBytes)
          { out with events :=
              TraceEvent.streamRead :: TraceEvent.fileOpen :: TraceEvent.fileWrite :: out.events }
        else
          { downloaded := downloaded, writeError := some "Write failed"
            events := [TraceEvent.streamRead, TraceEvent.fileOpen, TraceEvent.fileWrite] }
    else
      { downloaded := downloaded, writeError := none, events := [] }

/-- Result of the retry loop: the populated `DownloadResult`, whether the
local scratch buffer is still allocated, and the emitted events. -/
structure LoopOut where
  result : DownloadResult
  localBufAllocated : Bool
  events : List TraceEvent

/-- The retry `while` loop of `HttpDownloader::download` (lines 76-167),
with `remaining` the number of loop entries the guard `tries ≤ maxRetries`
still permits (initially `maxRetries + 1`).  A non-OK status on the last
permitted attempt breaks with the HTTP error; earlier non-OK statuses back
off and retry.  An OK status streams the body and breaks, freeing the
local scratch buffer (lines 160-163); note that the two other `break`
paths (final HTTP failure, output-file open failure) do NOT free it. -/
def retryLoop (cancelled : Bool) (bufSize : Nat) (hasLocalBuf : Bool)
    (attempts : Nat → HttpAttempt) : Nat → Nat → LoopOut
  | _, 0 => { result := {}, localBufAllocated := hasLocalBuf, events := [] }
  | idx, remaining + 1 =>
    let a := attempts idx
    if a.code ≠ 200 then
      if remaining = 0 then
        { result := { success := false, httpStatusCode := a.code
                      errorMessage := "HTTP GET failed: " ++ toString a.code }
          localBufAllocated := hasLocalBuf
          events := [TraceEvent.httpGet] }
      else
        let out := retryLoop cancelled bufSize hasLocalBuf attempts (idx + 1) remaining
        { out with events := TraceEvent.httpGet :: TraceEvent.backoff :: out.events }
    else
      let total := intToSizeT a.size
      if !a.outOpenOk then
        { result := { success := false, errorMessage := "Failed to open output file" }
          localBufAllocated := hasLocalBuf
          events := [TraceEvent.httpGet, TraceEvent.fileOpen] }
      else
        let sOut := streamLoop bufSize total cancelled a.steps 0
        { result := { success := decide (0 < sOut.downloaded) && !cancelled
                      fileSize := total, totalBytes := sOut.downloaded
                      httpStatusCode := a.code
                      errorMessage := sOut.writeError.getD "" }
          localBufAllocated := false
          events := TraceEvent.httpGet :: TraceEvent.fileOpen :: sOut.events }

/-- Outcome of one `HttpDownloader::download` call. -/
structure CallOut where
  result : DownloadResult
  /-- Whether the locally owned scratch buffer is still allocated when the
  call returns (`true` = leaked). -/
  localBufAllocated : Bool
  /-- The `cancelled` member after the call (no statement in the function
  body assigns it). -/
  cancelledAfter : Bool
  events : List TraceEvent

/-- The effective chunk size of `HttpDownloader::download` (lines 59-60):
the manager's download-buffer size when a manager with a positive size is
attached, else `DEFAULT_DOWNLOAD_BUFFER_SIZE`. -/
def bufSizeOf (bufMgrSize : Option Nat) : Nat :=
  match bufMgrSize with
  | some n => if 0 < n then n else DEFAULT_DOWNLOAD_BUFFER_SIZE
  | none => DEFAULT_DOWNLOAD_BUFFER_SIZE

/-- `HttpDownloader::download(url, targetPath)` (lines 48-177).
`cancelled` is the flag at entry (constant during the call in the
single-threaded regime), `bufMgrSize = some n` models an attached
`BufferManager` whose `getDownloadBufferSize()` returns `n`, `none` means
no manager (a local scratch buffer is malloc'd, line 65).  With the flag
set at entry the retry loop (guarded by `!cancelled`) never runs and the
final `if (cancelled)` override (lines 169-172) yields the cancellation
result — with the scratch buffer, if any, still allocated. -/
def download (cancelled : Bool) (bufMgrSize : Option Nat) (maxRetries : Nat)
    (env : HttpEnv) : CallOut :=
  if !env.spiffsBeginOk then
    { result := { success := false, errorMessage := "SPIFFS not mounted" }
      localBufAllocated := false, cancelledAfter := cancelled
      events := [TraceEvent.mount] }
  else if bufMgrSize.isNone && !env.mallocOk then
    { result := { success := false, errorMessage := "Failed to allocate temp buffer" }
      localBufAllocated := false, cancelledAfter := cancelled
      events := [TraceEvent.mount] }
  else if cancelled then
    { result := { success := false, errorMessage := "Cancelled by user" }
      localBufAllocated := bufMgrSize.isNone, cancelledAfter := cancelled
      events := [TraceEvent.mount] }
  else
    let out := retryLoop cancelled (bufSizeOf bufMgrSize) bufMgrSize.isNone env.attempts
      0 (maxRetries + 1)
    { result := out.result
      localBufAllocated := out.localBufAllocated
      cancelledAfter := cancelled
      events := TraceEvent.mount :: out.events }

end HttpDownloader

/-! ## `ResumeDownloader` (`download_engines.cpp` lines 179-242) -/

/-- Environment of one `ResumeDownloader::download` call: the HEAD-probe
answers, the local-file answers, and the environment of the delegated base
call. -/
structure ResumeEnv where
  /-- `http.sendRequest("HEAD")` status code. -/
  probeCode : Int
  /-- `http.getSize()` after the probe. -/
  probeSize : Int
  /-- `SPIFFS.exists(targetPath)`. -/
  fsExists : Bool
  /-- Whether `SPIFFS.open(targetPath, FILE_READ)` succeeds. -/
  fsOpenOk : Bool
  /-- `f.size()` of the local target file. -/
  fsSize : Nat
  /-- Environment of the delegated `HttpDownloader::download` call. -/
  base : HttpEnv

namespace ResumeDownloader

/-- `ResumeDownloader::probeRemoteSize`: the advertised size on status
200/301/302, else `-1` (`HTTP_CODE_OK`, `HTTP_CODE_MOVED_PERMANENTLY`,
`HTTP_CODE_FOUND`). -/
def probeRemoteSize (env : ResumeEnv) : Int :=
  if env.probeCode = 200 || env.probeCode = 301 || env.probeCode = 302 then
    env.probeSize
  else -1

/-- The local-size check of `ResumeDownloader::download` (lines 217-225):
`0` when the file does not exist or cannot be opened. -/
def localFileSize (env : ResumeEnv) : Nat :=
  if env.fsExists then (if env.fsOpenOk then env.fsSize else 0) else 0

/-- The events of the local-size check. -/
def localCheckEvents (env : ResumeEnv) : List TraceEvent :=
  if env.fsExists then
    if env.fsOpenOk then
      [TraceEvent.fileExists, TraceEvent.fileOpen, TraceEvent.fileSizeQuery]
    else [TraceEvent.fileExists, TraceEvent.fileOpen]
  else [TraceEvent.fileExists]

/-- Outcome of one `ResumeDownloader::download` call. -/
structure CallOut where
  result : DownloadResult
  /-- Whether the call fell through to `HttpDownloader::download`. -/
  baseInvoked : Bool
  localBufAllocated : Bool
  cancelledAfter : Bool
  events : List TraceEvent

/-- `ResumeDownloader::download(url, targetPath)` (lines 208-242): always
probes the remote size and checks the local size first; when the remote
size is known positive and the local size matches or exceeds it, returns
an immediate `"Already complete"` success without touching the base
engine; otherwise delegates to `HttpDownloader::download`. -/
def download (cancelled : Bool) (bufMgrSize : Option Nat) (maxRetries : Nat)
    (env : ResumeEnv) : CallOut :=
  let remoteSize := probeRemoteSize env
  let localSize := localFileSize env
  let preEvents := TraceEvent.headProbe :: localCheckEvents env
  if decide (0 < remoteSize) && decide (remoteSize.toNat ≤ localSize) then
    { result := { success := true, fileSize := remoteSize.toNat
                  totalBytes := localSize, errorMessage := "Already complete" }
      baseInvoked := false, localBufAllocated := false
      cancelledAfter := cancelled
      events := preEvents }
  else
    let out := HttpDownloader.download cancelled bufMgrSize maxRetries env.base
    { result := out.result
      baseInvoked := true
      localBufAllocated := out.localBufAllocated
      cancelledAfter := out.cancelledAfter
      events := preEvents ++ out.events }

end ResumeDownloader

/-! ## Well-formedness of the buffer manager state, and concrete
environments used by counterexamples and witnesses -/

/-- States the `BufferManager` API can actually put its object into:
when `buffersAllocated` is cleared every slot is null, and when it is set
the slots required by the current mode are non-null. -/
def BufferManagerState.wf (s : BufferManagerState) : Prop :=
  (s.buffersAllocated = false →
    s.downloadBuf0 = false ∧ s.downloadBuf1 = false ∧
    s.writeBuf0 = false ∧ s.writeBuf1 = false) ∧
  (s.buffersAllocated = true →
    s.downloadBuf0 = true ∧ s.writeBuf0 = true ∧
    (s.doubleBufferingEnabled = true → s.downloadBuf1 = true ∧ s.writeBuf1 = true))

/-- Post-state of a failed allocation call: every slot null and
`buffersAllocated` cleared. -/
def allocFailurePost (s : BufferManagerState) : Prop :=
  s.downloadBuf0 = false ∧ s.downloadBuf1 = false ∧
  s.writeBuf0 = false ∧ s.writeBuf1 = false ∧ s.buffersAllocated = false

/-- Post-state of a successful allocation call: every slot required by the
chosen single- or double-buffering mode non-null. -/
def allocSuccessPost (s : BufferManagerState) : Prop :=
  s.downloadBuf0 = true ∧ s.writeBuf0 = true ∧
  (s.doubleBufferingEnabled = true → s.downloadBuf1 = true ∧ s.writeBuf1 = true)

/-- A `malloc` oracle that always succeeds. -/
def allocAlwaysOk : Nat → Bool := fun _ => true

/-- A single-buffering allocated state, as produced by a successful
explicit allocation of 65536 + 32768 bytes. -/
def allocatedState : BufferManagerState :=
  { downloadBuf0 := true, downloadBuf1 := false
    writeBuf0 := true, writeBuf1 := false
    downloadBufferSize := 65536, writeBufferSize := 32768
    activeDownloadBuffer := 0, activeWriteBuffer := 0
    buffersAllocated := true, doubleBufferingEnabled := false }

/-- A transport environment whose every attempt fails with HTTP 500. -/
def transportFailEnv : HttpEnv :=
  { spiffsBeginOk := true, mallocOk := true
    attempts := fun _ => { code := 500, size := -1, outOpenOk := true, steps := [] } }

/-- A transport environment that delivers a 5-byte body in one chunk. -/
def httpSmallOkEnv : HttpEnv :=
  { spiffsBeginOk := true, mallocOk := true
    attempts := fun _ =>
      { code := 200, size := 5, outOpenOk := true
        steps := [{ connected := true, available := 5, readable := 5, writeOk := true }] } }

/-- A resume environment whose remote size probe answers 5 bytes while the
local file already holds 10 bytes (local size exceeds remote size). -/
def resumeOvershootEnv : ResumeEnv :=
  { probeCode := 200, probeSize := 5, fsExists := true, fsOpenOk := true, fsSize := 10
    base := transportFailEnv }

/-- A resume environment where the skip check applies exactly (local size
equals the known remote size). -/
def resumeSkipEnv : ResumeEnv :=
  { probeCode := 200, probeSize := 4096, fsExists := true, fsOpenOk := true, fsSize := 4096
    base := transportFailEnv }

/-- A transport environment whose first chunk of `read1` bytes transfers
and writes fine and whose second chunk hits a failing write; `rest` is the
part of the stream after the failing write. -/
def writeFailEnv (sz read1 : Nat) (rest : List StreamStep) : HttpEnv :=
  { spiffsBeginOk := true, mallocOk := true
    attempts := fun _ =>
      { code := 200, size := (sz : Int), outOpenOk := true
        steps := { connected := true, available := read1, readable := read1, writeOk := true }
              :: { connected := true, available := 1, readable := 1, writeOk := false }
              :: rest } }

/-- A resume environment for a cancelled instance: the probe answers 404
(unknown remote size, so the skip check does not apply) and the local file
is absent. -/
def cancelledResumeEnv : ResumeEnv :=
  { probeCode := 404, probeSize := -1, fsExists := false, fsOpenOk := false, fsSize := 0
    base := { spiffsBeginOk := true, mallocOk := true
              attempts := fun _ => { code := 500, size := -1, outOpenOk := false, steps := [] } } }

/-- An active monitoring session sampled for the first time at 1000 ms. -/
def pmWitnessState : PerformanceMonitorState :=
  { startTime := 0, lastUpdateTime := 0, lastSpeedUpdateTime := 0
    totalBytes := 0, lastByteCount := 0
    currentSpeedKBps := 0, averageSpeedKBps := 0
    speedHistory := List.replicate PERFORMANCE_HISTORY_SIZE 0
    historyIndex := 0, isActive := true }

/-! ## Helper lemmas -/

/-- `size_t` subtraction agrees with `Nat` subtraction when it cannot
underflow and the minuend is a genuine 32-bit value. -/
theorem sizeTSub_eq_sub (a b : Nat) (hba : b ≤ a) (ha : a < 4294967296) :
    sizeTSub a b = a - b := by
  unfold sizeTSub
  omega

/-- Converting a `Nat` below `2^32` through `int`/`size_t` is the
identity. -/
theorem intToSizeT_coe (n : Nat) (h : n < 4294967296) : intToSizeT n = n := by
  unfold intToSizeT
  rw [Int.emod_eq_of_lt (by exact_mod_cast Nat.zero_le n) (by exact_mod_cast h)]
  simp

/-! ## C6: the two asymmetric heap-margin policies -/

/-- C6: for every free-heap reading `h` (a 32-bit value) at or above the
fixed floor, `hasEnoughMemory bytes` returns true exactly when
`bytes ≤ h - min(0.15·h, 80000)`, while the double-buffering
affordability decision requires
`(downloadSize + writeSize) * 2 ≤ h - max(0.15·h, 80000)` for the
smart-scaled sizes: the safety-margin policies are asymmetric (`min` in
the headroom check, `max` in the allocation-sizing decision), each applied
exactly as stated in its own context. -/
theorem bufferManager_margin_policies_asymmetric (h b : Nat)
    (hw : h < 4294967296) (hfloor : MIN_FREE_HEAP_REQUIRED ≤ h) :
    (BufferManager.hasEnoughMemory h b = decide (b ≤ h - min (3 * h / 20) 80000)) ∧
    (BufferManager.canEnableDoubleBuffering h =
      decide ((BufferManager.getSmartDownloadBufferSize h +
               BufferManager.getSmartWriteBufferSize h) * 2 ≤ h - max (3 * h / 20) 80000)) := by
  constructor
  · rfl
  · have hfloor' : 80000 ≤ h := hfloor
    have hmax : max (3 * h / 20) 80000 ≤ h := by omega
    simp only [BufferManager.canEnableDoubleBuffering, BufferManager.heapSafetyMarginOf,
      MIN_FREE_HEAP_REQUIRED, decide_eq_decide]
    rw [sizeTSub_eq_sub h (max (3 * h / 20) 80000) hmax hw]

/-- Witness for C6 at the concrete heap reading 600000 and request
100000. -/
theorem bufferManager_margin_policies_asymmetric_witness :
    (600000 : Nat) < 4294967296 ∧ MIN_FREE_HEAP_REQUIRED ≤ 600000 ∧
    ((BufferManager.hasEnoughMemory 600000 100000 =
        decide (100000 ≤ 600000 - min (3 * 600000 / 20) 80000)) ∧
     (BufferManager.canEnableDoubleBuffering 600000 =
        decide ((BufferManager.getSmartDownloadBufferSize 600000 +
                 BufferManager.getSmartWriteBufferSize 600000) * 2 ≤
                600000 - max (3 * 600000 / 20) 80000))) :=
  ⟨by decide, by decide,
    bufferManager_margin_policies_asymmetric 600000 100000 (by decide) (by decide)⟩

/-- The allocation loop either fails leaving the reset state, or succeeds
with slot 0 of both roles filled, the mode preserved, and (when two
buffer pairs were requested) slot 1 of both roles filled as well. -/
theorem allocLoop_spec (s : BufferManagerState) (buffersNeeded downloadSize writeSize : Nat)
    (alloc : Nat → Bool) :
    ((BufferManager.allocLoop s buffersNeeded downloadSize writeSize alloc).1 = false →
      (BufferManager.allocLoop s buffersNeeded downloadSize writeSize alloc).2 =
        BufferManager.initialState) ∧
    ((BufferManager.allocLoop s buffersNeeded downloadSize writeSize alloc).1 = true →
      (BufferManager.allocLoop s buffersNeeded downloadSize writeSize alloc).2.downloadBuf0 = true ∧
      (BufferManager.allocLoop s buffersNeeded downloadSize writeSize alloc).2.writeBuf0 = true ∧
      (BufferManager.allocLoop s buffersNeeded downloadSize writeSize alloc).2.buffersAllocated = true ∧
      (BufferManager.allocLoop s buffersNeeded downloadSize writeSize alloc).2.doubleBufferingEnabled =
        s.doubleBufferingEnabled ∧
      (2 ≤ buffersNeeded →
        (BufferManager.allocLoop s buffersNeeded downloadSize writeSize alloc).2.downloadBuf1 = true ∧
        (BufferManager.allocLoop s buffersNeeded downloadSize writeSize alloc).2.writeBuf1 = true)) := by
  by_cases h0 : alloc 0
  · by_cases h1 : alloc 1
    · by_cases hbn : 2 ≤ buffersNeeded
      · by_cases h2 : alloc 2
        · by_cases h3 : alloc 3
          · simp [BufferManager.allocLoop, h0, h1, h2, h3, hbn]
          · simp [BufferManager.allocLoop, BufferManager.deallocateBuffers, h0, h1, h2, h3, hbn]
        · simp [BufferManager.allocLoop, BufferManager.deallocateBuffers, h0, h1, h2, hbn]
      · simp [BufferManager.allocLoop, h0, h1, hbn]
    · simp [BufferManager.allocLoop, BufferManager.deallocateBuffers, h0, h1]
  · simp [BufferManager.allocLoop, BufferManager.deallocateBuffers, h0]

/-- The core of the explicit-sizes allocation, started from a state with
every slot null and the allocated flag cleared, is all-or-nothing. -/
theorem allocateBuffersCore_post (s : BufferManagerState) (downloadSize writeSize freeHeap : Nat)
    (alloc : Nat → Bool)
    (h0 : s.downloadBuf0 = false) (h1 : s.downloadBuf1 = false)
    (h2 : s.writeBuf0 = false) (h3 : s.writeBuf1 = false)
    (hf : s.buffersAllocated = false) :
    ((BufferManager.allocateBuffersCore s downloadSize writeSize freeHeap alloc).1 = false →
      allocFailurePost (BufferManager.allocateBuffersCore s downloadSize writeSize freeHeap alloc).2) ∧
    ((BufferManager.allocateBuffersCore s downloadSize writeSize freeHeap alloc).1 = true →
      allocSuccessPost (BufferManager.allocateBuffersCore s downloadSize writeSize freeHeap alloc).2) := by
  have postOfLoop : ∀ (t : BufferManagerState) (bn : Nat),
      (t.doubleBufferingEnabled = true → 2 ≤ bn) →
      ((BufferManager.allocLoop t bn downloadSize writeSize alloc).1 = false →
        allocFailurePost (BufferManager.allocLoop t bn downloadSize writeSize alloc).2) ∧
      ((BufferManager.allocLoop t bn downloadSize writeSize alloc).1 = true →
        allocSuccessPost (BufferManager.allocLoop t bn downloadSize writeSize alloc).2) := by
    intro t bn hbn
    have hspec := allocLoop_spec t bn downloadSize writeSize alloc
    constructor
    · intro hfail
      rw [hspec.1 hfail]
      exact ⟨rfl, rfl, rfl, rfl, rfl⟩
    · intro hsucc
      obtain ⟨hb0, hw0, _, hdbe, hb1⟩ := hspec.2 hsucc
      refine ⟨hb0, hw0, fun hdbe₂ => ?_⟩
      rw [hdbe] at hdbe₂
      exact hb1 (hbn hdbe₂)
  unfold BufferManager.allocateBuffersCore
  cases hdbe : s.doubleBufferingEnabled with
  | true =>
    cases hmem :
        BufferManager.hasEnoughMemory freeHeap ((downloadSize + writeSize) * DOUBLE_BUFFER_COUNT) with
    | true =>
      simp only [hdbe, hmem, Bool.not_true, Bool.false_eq_true, if_false, if_true]
      exact postOfLoop s DOUBLE_BUFFER_COUNT (fun _ => by simp [DOUBLE_BUFFER_COUNT])
    | false =>
      cases hmem2 : BufferManager.hasEnoughMemory freeHeap (downloadSize + writeSize) with
      | true =>
        simp only [hdbe, hmem, hmem2, Bool.not_false, Bool.not_true, if_true,
          Bool.false_eq_true, if_false]
        exact postOfLoop { s with doubleBufferingEnabled := false } 1 (fun hcontra => by
          simp at hcontra)
      | false =>
        simp only [hdbe, hmem, hmem2, Bool.not_false, if_true]
        exact ⟨fun _ => ⟨h0, h1, h2, h3, hf⟩, fun hcontra => by simp at hcontra⟩
  | false =>
    cases hmem : BufferManager.hasEnoughMemory freeHeap ((downloadSize + writeSize) * 1) with
    | true =>
      simp only [hdbe, hmem, Bool.not_true, Bool.false_eq_true, if_false]
      exact postOfLoop s 1 (fun hcontra => by rw [hdbe] at hcontra; exact absurd hcontra (by simp))
    | false =>
      simp only [hdbe, hmem, Bool.not_false, Bool.false_eq_true, if_false, if_true]
      exact ⟨fun _ => ⟨h0, h1, h2, h3, hf⟩, fun hcontra => by simp at hcontra⟩

/-! ## C4: allocation is all-or-nothing -/

/-- C4: starting from any state the `BufferManager` API can produce, a
failed allocation call — through the explicit-sizes path or the
smart-scaling path — leaves every slot null with `buffersAllocated`
cleared, and a successful call leaves every slot required by the chosen
mode non-null. -/
theorem bufferManager_allocation_all_or_nothing (s : BufferManagerState)
    (downloadSize writeSize freeHeap : Nat) (alloc : Nat → Bool) (hwf : s.wf) :
    (((BufferManager.allocateBuffers s downloadSize writeSize freeHeap alloc).1 = false →
       allocFailurePost (BufferManager.allocateBuffers s downloadSize writeSize freeHeap alloc).2) ∧
     ((BufferManager.allocateBuffers s downloadSize writeSize freeHeap alloc).1 = true →
       allocSuccessPost (BufferManager.allocateBuffers s downloadSize writeSize freeHeap alloc).2)) ∧
    (((BufferManager.allocateSmartScalingBuffers s freeHeap alloc).1 = false →
       allocFailurePost (BufferManager.allocateSmartScalingBuffers s freeHeap alloc).2) ∧
     ((BufferManager.allocateSmartScalingBuffers s freeHeap alloc).1 = true →
       allocSuccessPost (BufferManager.allocateSmartScalingBuffers s freeHeap alloc).2)) := by
  have explicitPost : ∀ (t : BufferManagerState) (dlS wrS : Nat), (t.buffersAllocated = false →
      t.downloadBuf0 = false ∧ t.downloadBuf1 = false ∧ t.writeBuf0 = false ∧ t.writeBuf1 = false) →
      ((BufferManager.allocateBuffers t dlS wrS freeHeap alloc).1 = false →
        allocFailurePost (BufferManager.allocateBuffers t dlS wrS freeHeap alloc).2) ∧
      ((BufferManager.allocateBuffers t dlS wrS freeHeap alloc).1 = true →
        allocSuccessPost (BufferManager.allocateBuffers t dlS wrS freeHeap alloc).2) := by
    intro t dlS wrS hnull
    unfold BufferManager.allocateBuffers
    cases hba : t.buffersAllocated with
    | true =>
      rw [if_pos rfl]
      exact allocateBuffersCore_post _ dlS wrS freeHeap alloc rfl rfl rfl rfl rfl
    | false =>
      rw [if_neg (by simp)]
      rcases hnull hba with ⟨hn0, hn1, hn2, hn3⟩
      exact allocateBuffersCore_post t dlS wrS freeHeap alloc hn0 hn1 hn2 hn3 hba
  refine ⟨explicitPost s downloadSize writeSize hwf.1, ?_⟩
  unfold BufferManager.allocateSmartScalingBuffers
  cases hba : s.buffersAllocated with
  | true =>
    rw [if_pos rfl]
    exact ⟨fun hcontra => by simp at hcontra, fun _ => hwf.2 hba⟩
  | false =>
    rw [if_neg (by simp)]
    exact explicitPost
      { downloadBuf0 := s.downloadBuf0, downloadBuf1 := s.downloadBuf1
        writeBuf0 := s.writeBuf0, writeBuf1 := s.writeBuf1
        downloadBufferSize := s.downloadBufferSize, writeBufferSize := s.writeBufferSize
        activeDownloadBuffer := s.activeDownloadBuffer, activeWriteBuffer := s.activeWriteBuffer
        buffersAllocated := false
        doubleBufferingEnabled := BufferManager.canEnableDoubleBuffering freeHeap }
      (BufferManager.getSmartDownloadBufferSize freeHeap)
      (BufferManager.getSmartWriteBufferSize freeHeap)
      (fun _ => hwf.1 hba)

/-- Witness for C4 at the fresh manager state with 1000 + 500 byte
buffers, a 200000-byte heap reading, and an always-succeeding `malloc`. -/
theorem bufferManager_allocation_all_or_nothing_witness :
    BufferManagerState.wf BufferManager.initialState ∧
    ((((BufferManager.allocateBuffers BufferManager.initialState 1000 500 200000 allocAlwaysOk).1 = false →
       allocFailurePost (BufferManager.allocateBuffers BufferManager.initialState 1000 500 200000 allocAlwaysOk).2) ∧
     ((BufferManager.allocateBuffers BufferManager.initialState 1000 500 200000 allocAlwaysOk).1 = true →
       allocSuccessPost (BufferManager.allocateBuffers BufferManager.initialState 1000 500 200000 allocAlwaysOk).2)) ∧
    (((BufferManager.allocateSmartScalingBuffers BufferManager.initialState 200000 allocAlwaysOk).1 = false →
       allocFailurePost (BufferManager.allocateSmartScalingBuffers BufferManager.initialState 200000 allocAlwaysOk).2) ∧
     ((BufferManager.allocateSmartScalingBuffers BufferManager.initialState 200000 allocAlwaysOk).1 = true →
       allocSuccessPost (BufferManager.allocateSmartScalingBuffers BufferManager.initialState 200000 allocAlwaysOk).2))) :=
  ⟨⟨by decide, by decide⟩,
    bufferManager_allocation_all_or_nothing BufferManager.initialState 1000 500 200000
      allocAlwaysOk ⟨by decide, by decide⟩⟩

/-! ## C5: re-allocation while already allocated -/

/-- C5 counterexample: with buffers already allocated, the smart-scaling
path returns success immediately and leaves the state — including the
still-allocated old slots — completely unchanged: no implicit release and
no fresh allocation happen on this path. -/
theorem smartScaling_reallocation_performs_no_release :
    BufferManager.allocateSmartScalingBuffers allocatedState 600000 allocAlwaysOk =
      (true, allocatedState) ∧
    allocatedState.buffersAllocated = true ∧
    allocatedState.downloadBuf0 = true ∧
    allocatedState.downloadBufferSize = 65536 := by
  exact ⟨by simp [BufferManager.allocateSmartScalingBuffers, allocatedState], rfl, rfl, rfl⟩

/-- C5 amended: only the explicit-sizes path performs an implicit full
release before allocating anew when buffers are already allocated; the
smart-scaling path (and hence the no-argument allocate) instead returns
success immediately, leaving the existing buffers untouched. -/
theorem bufferManager_reallocation_release_policy (s : BufferManagerState)
    (downloadSize writeSize freeHeap : Nat) (alloc : Nat → Bool)
    (hba : s.buffersAllocated = true) :
    BufferManager.allocateBuffers s downloadSize writeSize freeHeap alloc =
      BufferManager.allocateBuffers (BufferManager.deallocateBuffers s)
        downloadSize writeSize freeHeap alloc ∧
    BufferManager.allocateSmartScalingBuffers s freeHeap alloc = (true, s) ∧
    BufferManager.allocateBuffersDefault s freeHeap alloc = (true, s) := by
  refine ⟨?_, ?_, ?_⟩
  · unfold BufferManager.allocateBuffers
    rw [if_pos hba]
    rw [show (BufferManager.deallocateBuffers s).buffersAllocated = false from rfl]
    rfl
  · unfold BufferManager.allocateSmartScalingBuffers
    rw [if_pos hba]
  · unfold BufferManager.allocateBuffersDefault BufferManager.allocateSmartScalingBuffers
    rw [if_pos hba]

/-- Witness for C5 amended at the concrete allocated single-buffering
state. -/
theorem bufferManager_reallocation_release_policy_witness :
    allocatedState.buffersAllocated = true ∧
    (BufferManager.allocateBuffers allocatedState 1000 500 200000 allocAlwaysOk =
      BufferManager.allocateBuffers (BufferManager.deallocateBuffers allocatedState)
        1000 500 200000 allocAlwaysOk ∧
    BufferManager.allocateSmartScalingBuffers allocatedState 200000 allocAlwaysOk =
      (true, allocatedState) ∧
    BufferManager.allocateBuffersDefault allocatedState 200000 allocAlwaysOk =
      (true, allocatedState)) :=
  ⟨rfl, bufferManager_reallocation_release_policy allocatedState 1000 500 200000 allocAlwaysOk rfl⟩

/-! ## C7: the resume skip path -/

/-- C7: when the remote-size probe answers a known positive size and the
local target's size matches or exceeds it, the resume variant returns an
immediate success (`"Already complete"`) carrying the remote size and the
local size, without invoking the base streaming engine and with zero reads
from the network byte-stream source — no GET, no stream read, only the
metadata probe. -/
theorem resume_skip_no_network_read (cancelled : Bool) (bufMgrSize : Option Nat)
    (maxRetries : Nat) (env : ResumeEnv)
    (hremote : 0 < ResumeDownloader.probeRemoteSize env)
    (hlocal : (ResumeDownloader.probeRemoteSize env).toNat ≤ ResumeDownloader.localFileSize env) :
    (ResumeDownloader.download cancelled bufMgrSize maxRetries env).result.success = true ∧
    (ResumeDownloader.download cancelled bufMgrSize maxRetries env).result.errorMessage =
      "Already complete" ∧
    (ResumeDownloader.download cancelled bufMgrSize maxRetries env).result.fileSize =
      (ResumeDownloader.probeRemoteSize env).toNat ∧
    (ResumeDownloader.download cancelled bufMgrSize maxRetries env).result.totalBytes =
      ResumeDownloader.localFileSize env ∧
    (ResumeDownloader.download cancelled bufMgrSize maxRetries env).baseInvoked = false ∧
    TraceEvent.streamRead ∉ (ResumeDownloader.download cancelled bufMgrSize maxRetries env).events ∧
    TraceEvent.httpGet ∉ (ResumeDownloader.download cancelled bufMgrSize maxRetries env).events := by
  have hcond : (decide (0 < ResumeDownloader.probeRemoteSize env) &&
      decide ((ResumeDownloader.probeRemoteSize env).toNat ≤ ResumeDownloader.localFileSize env)) =
      true := by
    simp [hremote, hlocal]
  simp only [ResumeDownloader.download, hcond, if_true]
  refine ⟨by trivial, by trivial, by trivial, by trivial, by trivial, ?_, ?_⟩ <;>
    · unfold ResumeDownloader.localCheckEvents
      split
      · split <;> decide
      · decide

/-- Witness for C7: remote size 4096, local size 4096. -/
theorem resume_skip_no_network_read_witness :
    0 < ResumeDownloader.probeRemoteSize resumeSkipEnv ∧
    (ResumeDownloader.probeRemoteSize resumeSkipEnv).toNat ≤
      ResumeDownloader.localFileSize resumeSkipEnv ∧
    ((ResumeDownloader.download false none 2 resumeSkipEnv).result.success = true ∧
    (ResumeDownloader.download false none 2 resumeSkipEnv).result.errorMessage =
      "Already complete" ∧
    (ResumeDownloader.download false none 2 resumeSkipEnv).result.fileSize =
      (ResumeDownloader.probeRemoteSize resumeSkipEnv).toNat ∧
    (ResumeDownloader.download false none 2 resumeSkipEnv).result.totalBytes =
      ResumeDownloader.localFileSize resumeSkipEnv ∧
    (ResumeDownloader.download false none 2 resumeSkipEnv).baseInvoked = false ∧
    TraceEvent.streamRead ∉ (ResumeDownloader.download false none 2 resumeSkipEnv).events ∧
    TraceEvent.httpGet ∉ (ResumeDownloader.download false none 2 resumeSkipEnv).events) :=
  ⟨by decide, by decide,
    resume_skip_no_network_read false none 2 resumeSkipEnv (by decide) (by decide)⟩

/-! ## C1: the result-record invariant -/

/-- In the streaming loop, when the expected total is known and positive,
the downloaded byte count never exceeds it: each read is capped at the
remaining budget. -/
theorem streamLoop_downloaded_le (bufSize total : Nat) (cancelled : Bool)
    (steps : List StreamStep) (d : Nat) (htot : 0 < total) (hd : d ≤ total) :
    (HttpDownloader.streamLoop bufSize total cancelled steps d).downloaded ≤ total := by
  induction steps generalizing d with
  | nil => simpa [HttpDownloader.streamLoop] using hd
  | cons step rest ih =>
    rw [HttpDownloader.streamLoop]
    by_cases hkeep : (step.connected &&
        (if 0 < total then decide (d < total) else decide (0 < step.available)) &&
        !cancelled) = true
    · rw [if_pos hkeep]
      have hdlt : d < total := by
        rw [if_pos htot] at hkeep
        have := (Bool.and_eq_true _ _).mp ((Bool.and_eq_true _ _).mp hkeep).1
        exact of_decide_eq_true this.2
      by_cases havail : step.available = 0
      · rw [if_pos havail]
        exact ih d hd
      · rw [if_neg havail]
        by_cases hread : min step.readable (if 0 < total then min bufSize (total - d) else bufSize) = 0
        · rw [if_pos hread]
          exact hd
        · rw [if_neg hread]
          by_cases hwrite : step.writeOk = true
          · rw [if_pos hwrite]
            refine ih _ ?_
            have hcap : min step.readable (if 0 < total then min bufSize (total - d) else bufSize) ≤
                total - d := by
              rw [if_pos htot]
              exact le_trans (min_le_right _ _) (min_le_right _ _)
            omega
          · rw [if_neg hwrite]
            exact hd
    · rw [if_neg hkeep]
      exact hd

/-- Every result the retry loop produces satisfies the streaming-base
result invariant: success only with a positive byte count and no
cancellation, and a nonzero `fileSize` bounds `totalBytes`. -/
theorem retryLoop_result_invariant (cancelled : Bool) (bufSize : Nat) (hasLocalBuf : Bool)
    (attempts : Nat → HttpAttempt) (remaining idx : Nat) :
    ((HttpDownloader.retryLoop cancelled bufSize hasLocalBuf attempts idx remaining).result.success =
        true →
      0 < (HttpDownloader.retryLoop cancelled bufSize hasLocalBuf attempts idx remaining).result.totalBytes ∧
      cancelled = false) ∧
    ((HttpDownloader.retryLoop cancelled bufSize hasLocalBuf attempts idx remaining).result.fileSize ≠ 0 →
      (HttpDownloader.retryLoop cancelled bufSize hasLocalBuf attempts idx remaining).result.totalBytes ≤
      (HttpDownloader.retryLoop cancelled bufSize hasLocalBuf attempts idx remaining).result.fileSize) := by
  induction remaining generalizing idx with
  | zero =>
    rw [HttpDownloader.retryLoop]
    exact ⟨fun hcontra => by simp at hcontra, fun hcontra => by simp at hcontra⟩
  | succ r ih =>
    rw [HttpDownloader.retryLoop]
    by_cases hcode : (attempts idx).code ≠ 200
    · rw [if_pos hcode]
      by_cases hr : r = 0
      · rw [if_pos hr]
        exact ⟨fun hcontra => by simp at hcontra, fun hcontra => by simp at hcontra⟩
      · rw [if_neg hr]
        exact ih (idx + 1)
    · rw [if_neg hcode]
      cases hopen : (attempts idx).outOpenOk with
      | false =>
        rw [if_pos (show (!false) = true from rfl)]
        exact ⟨fun hcontra => by simp at hcontra, fun hcontra => by simp at hcontra⟩
      | true =>
        rw [if_neg (show ¬((!true) = true) by simp)]
        refine ⟨?_, ?_⟩ <;> dsimp only
        · intro hsucc
          simp only [Bool.and_eq_true, decide_eq_true_eq, Bool.not_eq_true'] at hsucc
          exact hsucc
        · intro hfs
          by_cases htot : 0 < intToSizeT (attempts idx).size
          · exact streamLoop_downloaded_le bufSize _ cancelled (attempts idx).steps 0 htot
              (Nat.zero_le _)
          · omega

/-- C9: on an active monitor, when at least `SPEED_UPDATE_INTERVAL_MS` has
elapsed since the last speed sample (so the elapsed time is nonzero), the
instantaneous speed is `(delta / 1024) * 1000 / dt` KB/s with
`delta = newBytes - lastBytes` when `newBytes ≥ lastBytes` and `newBytes`
itself otherwise, the exponential average becomes `avg*0.8 + instant*0.2`,
and the instantaneous sample is written into the circular history slot
`historyIndex % 20`, advancing the index. -/
theorem performanceMonitor_speed_sample (s : PerformanceMonitorState) (bytes now : Nat)
    (hact : s.isActive = true)
    (hint : SPEED_UPDATE_INTERVAL_MS ≤ now - s.lastSpeedUpdateTime)
    (hdt : 0 < now - s.lastSpeedUpdateTime) :
    ((PerformanceMonitor.updateProgress s bytes now).currentSpeedKBps =
      ((((if s.lastByteCount ≤ bytes then bytes - s.lastByteCount else bytes) : Nat) : Rat) / 1024)
        * 1000 / ((now - s.lastSpeedUpdateTime : Nat) : Rat)) ∧
    ((PerformanceMonitor.updateProgress s bytes now).averageSpeedKBps =
      s.averageSpeedKBps * (4 / 5 : Rat) +
        (PerformanceMonitor.updateProgress s bytes now).currentSpeedKBps * (1 / 5 : Rat)) ∧
    ((PerformanceMonitor.updateProgress s bytes now).speedHistory =
      s.speedHistory.set (s.historyIndex % PERFORMANCE_HISTORY_SIZE)
        (PerformanceMonitor.updateProgress s bytes now).currentSpeedKBps) ∧
    ((PerformanceMonitor.updateProgress s bytes now).historyIndex = s.historyIndex + 1) := by
  have hdt' : now - s.lastSpeedUpdateTime ≠ 0 := Nat.pos_iff_ne_zero.mp hdt
  unfold PerformanceMonitor.updateProgress
  rw [hact]
  simp only [Bool.not_true, Bool.false_eq_true, if_false, if_pos hint]
  unfold PerformanceMonitor.calculateCurrentSpeed PerformanceMonitor.updateSpeedHistory
  simp only [if_neg hdt']
  split <;> simp

/-- Witness for C9: a fresh active monitor sampled with 2048 bytes at
1000 ms. -/
theorem performanceMonitor_speed_sample_witness :
    pmWitnessState.isActive = true ∧
    SPEED_UPDATE_INTERVAL_MS ≤ 1000 - pmWitnessState.lastSpeedUpdateTime ∧
    (((PerformanceMonitor.updateProgress pmWitnessState 2048 1000).currentSpeedKBps =
      ((((if pmWitnessState.lastByteCount ≤ 2048 then 2048 - pmWitnessState.lastByteCount
          else 2048) : Nat) : Rat) / 1024)
        * 1000 / ((1000 - pmWitnessState.lastSpeedUpdateTime : Nat) : Rat)) ∧
    ((PerformanceMonitor.updateProgress pmWitnessState 2048 1000).averageSpeedKBps =
      pmWitnessState.averageSpeedKBps * (4 / 5 : Rat) +
        (PerformanceMonitor.updateProgress pmWitnessState 2048 1000).currentSpeedKBps
          * (1 / 5 : Rat)) ∧
    ((PerformanceMonitor.updateProgress pmWitnessState 2048 1000).speedHistory =
      pmWitnessState.speedHistory.set
        (pmWitnessState.historyIndex % PERFORMANCE_HISTORY_SIZE)
        (PerformanceMonitor.updateProgress pmWitnessState 2048 1000).currentSpeedKBps) ∧
    ((PerformanceMonitor.updateProgress pmWitnessState 2048 1000).historyIndex =
      pmWitnessState.historyIndex + 1)) :=
  ⟨rfl, by decide,
    performanceMonitor_speed_sample pmWitnessState 2048 1000 rfl (by decide) (by decide)⟩

/-- C1 counterexample: a completed resume-variant call (remote size 5
known and nonzero, local file of 10 bytes) returns `success = true` with
`totalBytes = 10` strictly exceeding `fileSize = 5`, refuting the claimed
invariant for the resume variant. -/
theorem resume_skip_totalBytes_exceeds_fileSize :
    (ResumeDownloader.download false none 2 resumeOvershootEnv).result.success = true ∧
    (ResumeDownloader.download false none 2 resumeOvershootEnv).result.fileSize = 5 ∧
    (ResumeDownloader.download false none 2 resumeOvershootEnv).result.totalBytes = 10 ∧
    (ResumeDownloader.download false none 2 resumeOvershootEnv).result.fileSize ≠ 0 ∧
    (ResumeDownloader.download false none 2 resumeOvershootEnv).result.fileSize <
      (ResumeDownloader.download false none 2 resumeOvershootEnv).result.totalBytes := by
  decide

/-- C1 amended: for every completed streaming-base (`HttpDownloader`)
download call, `success = true` only if at least one byte was transferred
and the operation was not cancelled, and `totalBytes` never exceeds
`fileSize` when `fileSize` is known and nonzero.  (The resume skip path
violates the `totalBytes ≤ fileSize` bound, and the dual-core variant can
report success with zero bytes, so the claim holds for the streaming base
only.) -/
theorem httpDownload_result_invariant (cancelled : Bool) (bufMgrSize : Option Nat)
    (maxRetries : Nat) (env : HttpEnv) :
    ((HttpDownloader.download cancelled bufMgrSize maxRetries env).result.success = true →
      0 < (HttpDownloader.download cancelled bufMgrSize maxRetries env).result.totalBytes ∧
      cancelled = false) ∧
    ((HttpDownloader.download cancelled bufMgrSize maxRetries env).result.fileSize ≠ 0 →
      (HttpDownloader.download cancelled bufMgrSize maxRetries env).result.totalBytes ≤
      (HttpDownloader.download cancelled bufMgrSize maxRetries env).result.fileSize) := by
  unfold HttpDownloader.download
  cases hmnt : env.spiffsBeginOk with
  | false =>
    rw [if_pos (show (!false) = true from rfl)]
    exact ⟨fun hcontra => by simp at hcontra, fun hcontra => by simp at hcontra⟩
  | true =>
    rw [if_neg (show ¬((!true) = true) by simp)]
    by_cases hm : (bufMgrSize.isNone && !env.mallocOk) = true
    · rw [if_pos hm]
      exact ⟨fun hcontra => by simp at hcontra, fun hcontra => by simp at hcontra⟩
    · rw [if_neg hm]
      cases hc : cancelled with
      | true =>
        rw [if_pos rfl]
        exact ⟨fun hcontra => by simp at hcontra, fun hcontra => by simp at hcontra⟩
      | false =>
        rw [if_neg (by simp)]
        exact retryLoop_result_invariant false (HttpDownloader.bufSizeOf bufMgrSize)
          bufMgrSize.isNone env.attempts (maxRetries + 1) 0

/-- Witness for C1 amended: a successful 5-byte streaming download. -/
theorem httpDownload_result_invariant_witness :
    (HttpDownloader.download false none 2 httpSmallOkEnv).result.success = true ∧
    (HttpDownloader.download false none 2 httpSmallOkEnv).result.fileSize ≠ 0 ∧
    0 < (HttpDownloader.download false none 2 httpSmallOkEnv).result.totalBytes ∧
    (HttpDownloader.download false none 2 httpSmallOkEnv).result.totalBytes ≤
      (HttpDownloader.download false none 2 httpSmallOkEnv).result.fileSize :=
  ⟨by decide, by decide,
    ((httpDownload_result_invariant false none 2 httpSmallOkEnv).1 (by decide)).1,
    (httpDownload_result_invariant false none 2 httpSmallOkEnv).2 (by decide)⟩

/-- C2 counterexample: a streaming-base attempt whose second chunk write
fails returns a result that carries the `"Write failed"` error AND
`success = true`, because the success flag is computed from the bytes
already transferred (1024 of 2048) — the attempt IS reported as a
success. -/
theorem http_write_failure_reported_as_success :
    (HttpDownloader.download false none 2 (writeFailEnv 2048 1024 [])).result.success = true ∧
    (HttpDownloader.download false none 2 (writeFailEnv 2048 1024 [])).result.errorMessage =
      "Write failed" ∧
    (HttpDownloader.download false none 2 (writeFailEnv 2048 1024 [])).result.totalBytes = 1024 := by
  decide

/-- C2 amended: a chunk-write failure mid-stream aborts the attempt
immediately — the rest of the stream is never consumed (the outcome is
independent of everything after the failing chunk, so neither the write
nor the transport step is retried) — and the result carries the
`"Write failed"` error message; the success flag, however, is not forced
to false: it follows the byte-count rule, so it is `true` exactly when at
least one byte was transferred before the failure (and the call was not
cancelled). -/
theorem http_write_failure_aborts_attempt (sz read1 maxRetries : Nat) (rest : List StreamStep)
    (h1 : 0 < read1) (h2 : read1 < sz) (h3 : sz < 4294967296) (h4 : read1 ≤ 65536) :
    (HttpDownloader.download false none maxRetries (writeFailEnv sz read1 rest)).result.errorMessage =
      "Write failed" ∧
    (HttpDownloader.download false none maxRetries (writeFailEnv sz read1 rest)).result.success =
      true ∧
    (HttpDownloader.download false none maxRetries (writeFailEnv sz read1 rest)).result.totalBytes =
      read1 ∧
    HttpDownloader.download false none maxRetries (writeFailEnv sz read1 rest) =
      HttpDownloader.download false none maxRetries (writeFailEnv sz read1 []) := by
  have htot : intToSizeT ((sz : Nat) : Int) = sz := intToSizeT_coe sz h3
  have hsz : 0 < sz := by omega
  have hsz' : sz ≠ 0 := by omega
  have h1' : read1 ≠ 0 := by omega
  have hr1 : min read1 (min 65536 sz) = read1 := by omega
  have hd2 : sz - read1 ≠ 0 := by omega
  have hd2' : sz - min read1 (min 65536 sz) ≠ 0 := by omega
  have h2' : min read1 (min 65536 sz) < sz := by omega
  have hr2 : min 1 (min 65536 (sz - read1)) = 1 := by omega
  simp [HttpDownloader.download, HttpDownloader.retryLoop, HttpDownloader.streamLoop,
    writeFailEnv, HttpDownloader.bufSizeOf, DEFAULT_DOWNLOAD_BUFFER_SIZE, htot, hsz, hsz', hr1,
    hd2, hd2', h2', hr2, h1, h1', h2]

/-- Witness for C2 amended: 1024 bytes transferred out of 2048, with one
further step pending after the failing write. -/
theorem http_write_failure_aborts_attempt_witness :
    0 < 1024 ∧ (1024 : Nat) < 2048 ∧
    ((HttpDownloader.download false none 2
        (writeFailEnv 2048 1024 [{ connected := true, available := 3, readable := 3, writeOk := true }])).result.errorMessage =
      "Write failed" ∧
    (HttpDownloader.download false none 2
        (writeFailEnv 2048 1024 [{ connected := true, available := 3, readable := 3, writeOk := true }])).result.success =
      true ∧
    (HttpDownloader.download false none 2
        (writeFailEnv 2048 1024 [{ connected := true, available := 3, readable := 3, writeOk := true }])).result.totalBytes =
      1024 ∧
    HttpDownloader.download false none 2
        (writeFailEnv 2048 1024 [{ connected := true, available := 3, readable := 3, writeOk := true }]) =
      HttpDownloader.download false none 2 (writeFailEnv 2048 1024 [])) :=
  ⟨by decide, by decide,
    http_write_failure_aborts_attempt 2048 1024 2
      [{ connected := true, available := 3, readable := 3, writeOk := true }]
      (by decide) (by decide) (by decide) (by decide)⟩

/-- C3: at the failing input — no buffer manager attached, storage mounts,
the scratch `malloc` succeeds, and every transport attempt fails with
HTTP 500 — the streaming-base call returns through the final-retry
`break` (line 87) WITHOUT freeing the locally allocated scratch buffer:
the claimed "freed on every exit path" is violated by the code. -/
theorem http_transport_failure_leaks_scratch_buffer :
    (HttpDownloader.download false none 2 transportFailEnv).localBufAllocated = true ∧
    (HttpDownloader.download false none 2 transportFailEnv).result.success = false ∧
    (HttpDownloader.download false none 2 transportFailEnv).result.errorMessage =
      "HTTP GET failed: 500" ∧
    (HttpDownloader.download false none 2 transportFailEnv).result.httpStatusCode = 500 := by
  decide

/-- A cancelled streaming-base call with working setup returns exactly the
cancellation result: no transport attempt, no file operation, scratch
buffer (if any) still marked allocated, flag untouched. -/
theorem httpDownload_cancelled_eq (bufMgrSize : Option Nat) (maxRetries : Nat) (env : HttpEnv)
    (hmnt : env.spiffsBeginOk = true) (hmal : env.mallocOk = true) :
    HttpDownloader.download true bufMgrSize maxRetries env =
      { result := { success := false, errorMessage := "Cancelled by user" }
        localBufAllocated := bufMgrSize.isNone, cancelledAfter := true
        events := [TraceEvent.mount] } := by
  simp [HttpDownloader.download, hmnt, hmal]

/-- C10 counterexample: a `download` call on a cancelled `ResumeDownloader`
whose skip check does not apply does return the cancellation failure, but
it still performs transport I/O (the HEAD metadata probe) and file I/O
(the local existence check) — refuting "performs no transport or file
I/O". -/
theorem cancelled_resume_still_probes :
    (ResumeDownloader.download true none 2 cancelledResumeEnv).result.success = false ∧
    (ResumeDownloader.download true none 2 cancelledResumeEnv).result.errorMessage =
      "Cancelled by user" ∧
    TraceEvent.headProbe ∈ (ResumeDownloader.download true none 2 cancelledResumeEnv).events ∧
    TraceEvent.headProbe.touchesNetworkOrFiles = true ∧
    TraceEvent.fileExists ∈ (ResumeDownloader.download true none 2 cancelledResumeEnv).events ∧
    TraceEvent.fileExists.touchesNetworkOrFiles = true := by
  decide

/-- C10 amended: the cancellation flag is never reset.  Once `cancel()`
has been called on an `HttpDownloader`, every subsequent `download` call
(with working setup) returns `success = false` with the cancellation
error message, performs no transport or file I/O, and leaves the flag
set — forever, since no code path clears it.  A cancelled
`ResumeDownloader` whose skip check does not apply likewise returns the
cancellation failure with the flag still set, but it first performs its
metadata probe and local-size check (transport and file I/O) before
delegating. -/
theorem cancellation_is_permanent (bufMgrSize : Option Nat) (maxRetries : Nat)
    (envH : HttpEnv) (envR : ResumeEnv)
    (hmnt : envH.spiffsBeginOk = true) (hmal : envH.mallocOk = true)
    (hskip : ¬ (0 < ResumeDownloader.probeRemoteSize envR ∧
      (ResumeDownloader.probeRemoteSize envR).toNat ≤ ResumeDownloader.localFileSize envR))
    (hmntR : envR.base.spiffsBeginOk = true) (hmalR : envR.base.mallocOk = true) :
    ((HttpDownloader.download true bufMgrSize maxRetries envH).result.success = false ∧
     (HttpDownloader.download true bufMgrSize maxRetries envH).result.errorMessage =
       "Cancelled by user" ∧
     (HttpDownloader.download true bufMgrSize maxRetries envH).cancelledAfter = true ∧
     ∀ e ∈ (HttpDownloader.download true bufMgrSize maxRetries envH).events,
       e.touchesNetworkOrFiles = false) ∧
    ((ResumeDownloader.download true bufMgrSize maxRetries envR).result.success = false ∧
     (ResumeDownloader.download true bufMgrSize maxRetries envR).result.errorMessage =
       "Cancelled by user" ∧
     (ResumeDownloader.download true bufMgrSize maxRetries envR).cancelledAfter = true) := by
  have hH := httpDownload_cancelled_eq bufMgrSize maxRetries envH hmnt hmal
  have hR := httpDownload_cancelled_eq bufMgrSize maxRetries envR.base hmntR hmalR
  constructor
  · rw [hH]
    refine ⟨rfl, rfl, rfl, ?_⟩
    intro e he
    simp only [List.mem_singleton] at he
    subst he
    rfl
  · have hcond : (decide (0 < ResumeDownloader.probeRemoteSize envR) &&
        decide ((ResumeDownloader.probeRemoteSize envR).toNat ≤
          ResumeDownloader.localFileSize envR)) = false := by
      cases hca : (decide (0 < ResumeDownloader.probeRemoteSize envR) &&
          decide ((ResumeDownloader.probeRemoteSize envR).toNat ≤
            ResumeDownloader.localFileSize envR)) with
      | false => rfl
      | true => exact absurd (by simpa using hca) hskip
    simp only [ResumeDownloader.download, hcond, Bool.false_eq_true, if_false]
    rw [hR]
    exact ⟨rfl, rfl, rfl⟩

/-- Witness for C10 amended, at the concrete cancelled-resume
environment. -/
theorem cancellation_is_permanent_witness :
    cancelledResumeEnv.base.spiffsBeginOk = true ∧
    (((HttpDownloader.download true none 2 cancelledResumeEnv.base).result.success = false ∧
     (HttpDownloader.download true none 2 cancelledResumeEnv.base).result.errorMessage =
       "Cancelled by user" ∧
     (HttpDownloader.download true none 2 cancelledResumeEnv.base).cancelledAfter = true ∧
     ∀ e ∈ (HttpDownloader.download true none 2 cancelledResumeEnv.base).events,
       e.touchesNetworkOrFiles = false) ∧
    ((ResumeDownloader.download true none 2 cancelledResumeEnv).result.success = false ∧
     (ResumeDownloader.download true none 2 cancelledResumeEnv).result.errorMessage =
       "Cancelled by user" ∧
     (ResumeDownloader.download true none 2 cancelledResumeEnv).cancelledAfter = true)) :=
  ⟨rfl, cancellation_is_permanent none 2 cancelledResumeEnv.base cancelledResumeEnv
    rfl rfl (by decide) rfl rfl⟩
